import Mathlib

/-!
Verification of the sentry repository slice: authorization decorators
(`src/sentry/api/decorators.py`), the restricted queryset
(`src/sentry/db/models/manager/base_query_set.py`), the sudo middleware
(`src/sentry/middleware/sudo.py`), and the tag-values endpoint behavior
exercised by `tests/sentry/api/endpoints/test_group_tagkey_values.py`.
-/

namespace Sentry

/-- Kind of `request.auth`: the authentication object attached to the request.
`isinstance(request.auth, ApiKey)` / `isinstance(request.auth, ApiToken)`
become equality with the corresponding constructor. -/
inductive Auth
  | noAuth
  | apiKey
  | apiToken
  | otherAuth
deriving DecidableEq, Repr

/-- The slice of the Django/sentry user model the excerpt reads:
`is_authenticated`, the raw `password` field (empty string models an
empty/absent password, matching Python truthiness of `not user.password`),
the external predicate `is_user_password_usable(user)` as an abstract field,
and `get_verified_emails()` as the list of verified email addresses. -/
structure User where
  is_authenticated : Bool
  password : String
  passwordUsable : Bool
  verifiedEmails : List String
deriving DecidableEq, Repr

/-- The slice of the request object the excerpt reads. -/
structure Request where
  user : User
  auth : Auth
  sudoFlag : Bool
deriving DecidableEq, Repr

/-- Embedding of `request.is_sudo()` (provided by the sudo session machinery). -/
def Request.is_sudo (r : Request) : Bool := r.sudoFlag

/-- Embedding of `sentry.utils.auth.is_user_password_usable` (external to the
excerpt, hence an abstract field of `User`). -/
def is_user_password_usable (u : User) : Bool := u.passwordUsable

/-- Embedding of `request.user.get_verified_emails()`. -/
def get_verified_emails (u : User) : List String := u.verifiedEmails

/-- Embedding of Django queryset `.exists()` on the verified-emails queryset. -/
def querysetExists (l : List String) : Bool := !l.isEmpty

/-- The typed authorization errors raised by the decorators
(`sentry.api.exceptions`), plus an opaque constructor for any other
exception a wrapped view may raise. -/
inductive ApiError
  | sudoRequired (user : User)
  | emailVerificationRequired (user : User)
  | viewError (code : Nat)
deriving DecidableEq, Repr

/-- Embedding of `is_considered_sudo` from `src/sentry/api/decorators.py`:

    request.is_sudo()
    or isinstance(request.auth, ApiKey)
    or isinstance(request.auth, ApiToken)
    or user.is_authenticated
    and not is_user_password_usable(user)

Python `and` binds tighter than `or`, so the last disjunct is the
conjunction `user.is_authenticated and not is_user_password_usable(user)`. -/
def is_considered_sudo (r : Request) : Bool :=
  r.is_sudo
    || r.auth == Auth.apiKey
    || r.auth == Auth.apiToken
    || (r.user.is_authenticated && !(is_user_password_usable r.user))

universe u v w x

variable {Self : Type u} {Args : Type v} {Kwargs : Type w} {α : Type x}

/-- Embedding of the `sudo_required` decorator: the wrapped view raises
`SudoRequired(request.user)` when `not is_considered_sudo(request)`,
otherwise forwards to `func(self, request, *args, **kwargs)`.  A view is a
function returning `Except ApiError α` (raising becomes `Except.error`). -/
def sudo_required (func : Self → Request → Args → Kwargs → Except ApiError α)
    (self : Self) (request : Request) (args : Args) (kwargs : Kwargs) :
    Except ApiError α :=
  if !(is_considered_sudo request) then
    Except.error (ApiError.sudoRequired request.user)
  else
    func self request args kwargs

/-- Embedding of the `email_verification_required` decorator: the wrapped view
raises `EmailVerificationRequired(request.user)` when
`not request.user.get_verified_emails().exists()`, otherwise forwards. -/
def email_verification_required
    (func : Self → Request → Args → Kwargs → Except ApiError α)
    (self : Self) (request : Request) (args : Args) (kwargs : Kwargs) :
    Except ApiError α :=
  if !(querysetExists (get_verified_emails request.user)) then
    Except.error (ApiError.emailVerificationRequired request.user)
  else
    func self request args kwargs

/-- A concrete view used by witnesses: always returns `7` and never raises. -/
def constView : Unit → Request → Unit → Unit → Except ApiError Nat :=
  fun _ _ _ _ => Except.ok 7

/-- A concrete request with no sudo flag, no API auth, and an unauthenticated
user; used by witnesses. -/
def plainRequest : Request :=
  { user := { is_authenticated := false, password := "x", passwordUsable := true,
              verifiedEmails := [] },
    auth := Auth.noAuth, sudoFlag := false }

lemma is_considered_sudo_false_iff (r : Request) :
    is_considered_sudo r = false ↔
      (r.is_sudo = false ∧ r.auth ≠ Auth.apiKey ∧ r.auth ≠ Auth.apiToken ∧
        ¬(r.user.is_authenticated = true ∧ is_user_password_usable r.user = false)) := by
  unfold is_considered_sudo Request.is_sudo is_user_password_usable
  rcases r with ⟨⟨ia, pw, pu, ve⟩, au, sf⟩
  cases ia <;> cases pu <;> cases sf <;> cases au <;> simp

/-- C1: the view wrapped by `sudo_required` raises `SudoRequired` (carrying
`request.user`) if and only if `is_considered_sudo(request)` is false, i.e.
iff `request.is_sudo()` is false, `request.auth` is neither an `ApiKey` nor an
`ApiToken`, and it is not the case that the user is authenticated with an
unusable password; otherwise the wrapper returns the wrapped view's result.
(The hypothesis excludes views that raise `SudoRequired` themselves.) -/
theorem sudo_required_raises_iff
    (func : Self → Request → Args → Kwargs → Except ApiError α)
    (hfunc : ∀ s r a k u, func s r a k ≠ Except.error (ApiError.sudoRequired u))
    (self : Self) (request : Request) (args : Args) (kwargs : Kwargs) :
    (sudo_required func self request args kwargs
        = Except.error (ApiError.sudoRequired request.user)
      ↔ (request.is_sudo = false ∧ request.auth ≠ Auth.apiKey ∧
          request.auth ≠ Auth.apiToken ∧
          ¬(request.user.is_authenticated = true ∧
            is_user_password_usable request.user = false)))
    ∧ (is_considered_sudo request = true →
        sudo_required func self request args kwargs
          = func self request args kwargs) := by
  constructor
  · rw [← is_considered_sudo_false_iff]
    unfold sudo_required
    by_cases h : is_considered_sudo request = true
    · simp [h]
      exact hfunc self request args kwargs request.user
    · simp [Bool.not_eq_true] at h
      simp [h]
  · intro h
    simp [sudo_required, h]

/-- Witness for C1: at the concrete `plainRequest` (no sudo flag, no API auth,
unauthenticated user) the wrapper raises `SudoRequired`. -/
theorem sudo_required_raises_iff_witness :
    (∀ (s : Unit) (r : Request) (a : Unit) (k : Unit) (u : User),
        constView s r a k ≠ Except.error (ApiError.sudoRequired u))
    ∧ (sudo_required constView () plainRequest () ()
        = Except.error (ApiError.sudoRequired plainRequest.user)
      ↔ (plainRequest.is_sudo = false ∧ plainRequest.auth ≠ Auth.apiKey ∧
          plainRequest.auth ≠ Auth.apiToken ∧
          ¬(plainRequest.user.is_authenticated = true ∧
            is_user_password_usable plainRequest.user = false))) := by
  have hfunc : ∀ (s : Unit) (r : Request) (a : Unit) (k : Unit) (u : User),
      constView s r a k ≠ Except.error (ApiError.sudoRequired u) := by
    intro s r a k u h
    exact Except.noConfusion h
  exact ⟨hfunc,
    (sudo_required_raises_iff constView hfunc () plainRequest () ()).1⟩

/-- C10: the passwordless exemption in `is_considered_sudo` applies only to
authenticated users: by operator precedence the predicate is
`is_sudo or apiKey or apiToken or (is_authenticated and not usable)`, so for
every request with no sudo flag and no ApiKey/ApiToken auth, an
unauthenticated user is never considered sudo, regardless of password
usability. -/
theorem is_considered_sudo_unauthenticated
    (r : Request) (hs : r.is_sudo = false) (hk : r.auth ≠ Auth.apiKey)
    (ht : r.auth ≠ Auth.apiToken) (ha : r.user.is_authenticated = false) :
    is_considered_sudo r = false := by
  simp [is_considered_sudo, hs, ha]
  exact ⟨by simpa using hk, by simpa using ht⟩

/-- Witness for C10: the concrete unauthenticated request with an unusable
password is not considered sudo. -/
theorem is_considered_sudo_unauthenticated_witness :
    (plainRequest.is_sudo = false ∧ plainRequest.auth ≠ Auth.apiKey ∧
      plainRequest.auth ≠ Auth.apiToken ∧
      plainRequest.user.is_authenticated = false) ∧
    is_considered_sudo plainRequest = false :=
  ⟨⟨by decide, by decide, by decide, by decide⟩,
    is_considered_sudo_unauthenticated plainRequest (by decide) (by decide)
      (by decide) (by decide)⟩

/-- A concrete request whose user is authenticated with a usable password and
one verified email; used by witnesses. -/
def verifiedRequest : Request :=
  { user := { is_authenticated := true, password := "x", passwordUsable := true,
              verifiedEmails := ["a@example.com"] },
    auth := Auth.noAuth, sudoFlag := true }

/-- C2: the view wrapped by `email_verification_required` raises
`EmailVerificationRequired` (carrying `request.user`) if and only if the
account has no verified email address (`get_verified_emails()` is empty);
otherwise the wrapper returns the wrapped view's result.  (The hypothesis
excludes views that raise `EmailVerificationRequired` themselves.) -/
theorem email_verification_required_raises_iff
    (func : Self → Request → Args → Kwargs → Except ApiError α)
    (hfunc : ∀ s r a k u,
      func s r a k ≠ Except.error (ApiError.emailVerificationRequired u))
    (self : Self) (request : Request) (args : Args) (kwargs : Kwargs) :
    (email_verification_required func self request args kwargs
        = Except.error (ApiError.emailVerificationRequired request.user)
      ↔ get_verified_emails request.user = [])
    ∧ (get_verified_emails request.user ≠ [] →
        email_verification_required func self request args kwargs
          = func self request args kwargs) := by
  constructor
  · unfold email_verification_required querysetExists
    by_cases h : get_verified_emails request.user = []
    · simp [h]
    · simp [h, List.isEmpty_eq_false]
      intro hcontra
      exact hfunc self request args kwargs request.user hcontra
  · intro h
    simp [email_verification_required, querysetExists,
      List.isEmpty_eq_false, h]

/-- Witness for C2: at `plainRequest` (no verified emails) the wrapper raises
`EmailVerificationRequired`. -/
theorem email_verification_required_raises_iff_witness :
    (∀ (s : Unit) (r : Request) (a : Unit) (k : Unit) (u : User),
        constView s r a k ≠ Except.error (ApiError.emailVerificationRequired u))
    ∧ (email_verification_required constView () plainRequest () ()
        = Except.error (ApiError.emailVerificationRequired plainRequest.user)
      ↔ get_verified_emails plainRequest.user = []) := by
  have hfunc : ∀ (s : Unit) (r : Request) (a : Unit) (k : Unit) (u : User),
      constView s r a k ≠ Except.error (ApiError.emailVerificationRequired u) := by
    intro s r a k u h
    exact Except.noConfusion h
  exact ⟨hfunc,
    (email_verification_required_raises_iff constView hfunc () plainRequest
      () ()).1⟩

/-- C8: both authorization failures propagate as exceptions out of the wrapped
view; neither decorator catches the condition or converts it into a return
value.  Each wrapper's result is either its own authorization error (exactly
when its check fails) or the wrapped view's result unchanged — in particular
an exception raised by the view itself passes through untouched. -/
theorem decorators_propagate_exceptions
    (func : Self → Request → Args → Kwargs → Except ApiError α)
    (self : Self) (request : Request) (args : Args) (kwargs : Kwargs) :
    ((is_considered_sudo request = false ∧
        sudo_required func self request args kwargs
          = Except.error (ApiError.sudoRequired request.user)) ∨
      (is_considered_sudo request = true ∧
        sudo_required func self request args kwargs
          = func self request args kwargs))
    ∧ ((get_verified_emails request.user = [] ∧
        email_verification_required func self request args kwargs
          = Except.error (ApiError.emailVerificationRequired request.user)) ∨
      (get_verified_emails request.user ≠ [] ∧
        email_verification_required func self request args kwargs
          = func self request args kwargs)) := by
  constructor
  · by_cases h : is_considered_sudo request = true
    · exact Or.inr ⟨h, by simp [sudo_required, h]⟩
    · simp [Bool.not_eq_true] at h
      exact Or.inl ⟨h, by simp [sudo_required, h]⟩
  · by_cases h : get_verified_emails request.user = []
    · exact Or.inl ⟨h, by simp [email_verification_required, querysetExists, h]⟩
    · exact Or.inr ⟨h, by
        simp [email_verification_required, querysetExists,
          List.isEmpty_eq_false, h]⟩

/-- Embedding of `SudoMiddleware.has_sudo_privileges` from
`src/sentry/middleware/sudo.py`: users without a password are assumed to
always have sudo powers (`if user.is_authenticated and not user.password:
return True`), otherwise the result is delegated to the base
`SudoMiddleware.has_sudo_privileges`, which is external and therefore a
parameter. -/
def has_sudo_privileges (superHasSudoPrivileges : Request → Bool)
    (r : Request) : Bool :=
  if r.user.is_authenticated && r.user.password == "" then
    true
  else
    superHasSudoPrivileges r

/-- C4: `SudoMiddleware.has_sudo_privileges` returns `true` whenever
`request.user` is authenticated and has an empty/absent password field, and
in every other case returns exactly what the base middleware's
`has_sudo_privileges` returns for that request. -/
theorem has_sudo_privileges_spec (superHasSudoPrivileges : Request → Bool)
    (r : Request) :
    (r.user.is_authenticated = true ∧ r.user.password = "" →
      has_sudo_privileges superHasSudoPrivileges r = true)
    ∧ (¬(r.user.is_authenticated = true ∧ r.user.password = "") →
      has_sudo_privileges superHasSudoPrivileges r
        = superHasSudoPrivileges r) := by
  constructor
  · rintro ⟨h1, h2⟩
    simp [has_sudo_privileges, h1, h2]
  · intro h
    have hb : (r.user.is_authenticated && r.user.password == "") = false := by
      by_cases h1 : r.user.is_authenticated = true
      · by_cases h2 : r.user.password = ""
        · exact absurd ⟨h1, h2⟩ h
        · simp [h1, h2]
      · simp [Bool.not_eq_true] at h1
        simp [h1]
    simp [has_sudo_privileges, hb]

/-- A concrete passwordless authenticated request; used by witnesses. -/
def passwordlessRequest : Request :=
  { user := { is_authenticated := true, password := "", passwordUsable := false,
              verifiedEmails := [] },
    auth := Auth.noAuth, sudoFlag := false }

/-- Witness for C4: for an authenticated passwordless user the override
returns `true` even when the base middleware would return `false`. -/
theorem has_sudo_privileges_spec_witness :
    (passwordlessRequest.user.is_authenticated = true ∧
      passwordlessRequest.user.password = "") ∧
    has_sudo_privileges (fun _ => false) passwordlessRequest = true :=
  ⟨⟨by decide, by decide⟩,
    (has_sudo_privileges_spec (fun _ => false) passwordlessRequest).1
      ⟨by decide, by decide⟩⟩

/-- Method surface of Django `QuerySet` relevant to the excerpt: the two
overridden methods plus the inherited ones the claim singles out and a
sample of further inherited methods. -/
inductive QSMethod
  | defer
  | only
  | values
  | values_list
  | filterBy
  | excludeBy
  | orderBy
  | distinctRows
  | countRows
  | existsRows
  | firstRow
deriving DecidableEq, Repr

/-- Result of a queryset method call: an opaque value from the base class. -/
structure QSResult where
  payload : Nat
deriving DecidableEq, Repr

/-- Errors a queryset method can raise. -/
inductive QSError
  | notImplemented (message : String)
deriving DecidableEq, Repr

/-- Embedding of `BaseQuerySet` from
`src/sentry/db/models/manager/base_query_set.py`.  The Django base class's
method implementations are external, hence the parameter
`base : QSMethod → List Nat → QSResult` (arguments opaque as `List Nat`).
The subclass overrides exactly `defer` and `only`, each raising
`NotImplementedError("Use values_list instead [performance].")`;
every other method dispatches to the inherited implementation.  (A
commented-out override of `values` in the source confirms `values` is left
enabled.) -/
def BaseQuerySet.call (base : QSMethod → List Nat → QSResult)
    (m : QSMethod) (args : List Nat) : Except QSError QSResult :=
  match m with
  | QSMethod.defer =>
      Except.error (QSError.notImplemented "Use ``values_list`` instead [performance].")
  | QSMethod.only =>
      Except.error (QSError.notImplemented "Use ``values_list`` instead [performance].")
  | m => Except.ok (base m args)

/-- C3: `BaseQuerySet` disables exactly two methods: for every argument list,
`defer` and `only` raise `NotImplementedError`, while every other `QuerySet`
method (in particular `values` and `values_list`) is left unchanged from the
base class. -/
theorem base_query_set_disables_exactly_defer_and_only
    (base : QSMethod → List Nat → QSResult) (m : QSMethod) (args : List Nat) :
    (BaseQuerySet.call base m args
        = Except.error (QSError.notImplemented "Use ``values_list`` instead [performance].")
      ↔ (m = QSMethod.defer ∨ m = QSMethod.only))
    ∧ (m ≠ QSMethod.defer → m ≠ QSMethod.only →
        BaseQuerySet.call base m args = Except.ok (base m args))
    ∧ BaseQuerySet.call base QSMethod.values args
        = Except.ok (base QSMethod.values args)
    ∧ BaseQuerySet.call base QSMethod.values_list args
        = Except.ok (base QSMethod.values_list args) := by
  refine ⟨?_, ?_, rfl, rfl⟩
  · cases m <;> simp [BaseQuerySet.call]
  · intro h1 h2
    cases m <;> simp_all [BaseQuerySet.call]

/-- Witness for C3: with a concrete base implementation, `defer` raises and
`filter` is delegated unchanged. -/
theorem base_query_set_disables_exactly_defer_and_only_witness :
    (QSMethod.filterBy ≠ QSMethod.defer ∧ QSMethod.filterBy ≠ QSMethod.only)
    ∧ BaseQuerySet.call (fun _ args => ⟨args.length⟩) QSMethod.filterBy [1, 2]
        = Except.ok ⟨2⟩ :=
  ⟨⟨by decide, by decide⟩,
    (base_query_set_disables_exactly_defer_and_only
        (fun _ args => ⟨args.length⟩) QSMethod.filterBy [1, 2]).2.1
      (by decide) (by decide)⟩

/-- Stateful reading of a view: a function from `self`, `request`, args and
kwargs to a state transformer returning the new state and the outcome.  Used
to make the decorators' frame condition (the view's side effects happen
exactly once on success and never on failure) expressible. -/
def sudo_requiredSt {σ : Type} (func : Self → Request → Args → Kwargs →
      σ → σ × Except ApiError α)
    (self : Self) (request : Request) (args : Args) (kwargs : Kwargs) :
    σ → σ × Except ApiError α :=
  fun s =>
    if !(is_considered_sudo request) then
      (s, Except.error (ApiError.sudoRequired request.user))
    else
      func self request args kwargs s

/-- Stateful reading of `email_verification_required`, as for
`sudo_requiredSt`. -/
def email_verification_requiredSt {σ : Type}
    (func : Self → Request → Args → Kwargs → σ → σ × Except ApiError α)
    (self : Self) (request : Request) (args : Args) (kwargs : Kwargs) :
    σ → σ × Except ApiError α :=
  fun s =>
    if !(querysetExists (get_verified_emails request.user)) then
      (s, Except.error (ApiError.emailVerificationRequired request.user))
    else
      func self request args kwargs s

/-- Instrumentation wrapping a stateful view with an invocation counter: each
call increments the counter by one and otherwise behaves as the view. -/
def countCalls {σ : Type} (func : Self → Request → Args → Kwargs →
      σ → σ × Except ApiError α) :
    Self → Request → Args → Kwargs → Nat × σ → (Nat × σ) × Except ApiError α :=
  fun se r a k ns =>
    ((ns.1 + 1, (func se r a k ns.2).1), (func se r a k ns.2).2)

/-- C9: when the authorization check passes, each decorator is transparent —
the wrapped view is invoked exactly once (its counter goes from `n` to
`n + 1`) with the identical `self`, `request`, positional and keyword
arguments, and its state transition and result are returned unchanged; when
the check fails, the wrapped view is never invoked (counter and state are
untouched, so no effect of the view occurs). -/
theorem decorators_transparent_frame {σ : Type}
    (func : Self → Request → Args → Kwargs → σ → σ × Except ApiError α)
    (self : Self) (request : Request) (args : Args) (kwargs : Kwargs)
    (s : σ) (n : Nat) :
    (is_considered_sudo request = true →
      sudo_requiredSt func self request args kwargs s
          = func self request args kwargs s
        ∧ sudo_requiredSt (countCalls func) self request args kwargs (n, s)
          = ((n + 1, (func self request args kwargs s).1),
              (func self request args kwargs s).2))
    ∧ (is_considered_sudo request = false →
      sudo_requiredSt (countCalls func) self request args kwargs (n, s)
          = ((n, s), Except.error (ApiError.sudoRequired request.user)))
    ∧ (querysetExists (get_verified_emails request.user) = true →
      email_verification_requiredSt func self request args kwargs s
          = func self request args kwargs s
        ∧ email_verification_requiredSt (countCalls func) self request args
            kwargs (n, s)
          = ((n + 1, (func self request args kwargs s).1),
              (func self request args kwargs s).2))
    ∧ (querysetExists (get_verified_emails request.user) = false →
      email_verification_requiredSt (countCalls func) self request args kwargs
          (n, s)
          = ((n, s),
              Except.error (ApiError.emailVerificationRequired request.user))) := by
  refine ⟨?_, ?_, ?_, ?_⟩
  · intro h
    exact ⟨by simp [sudo_requiredSt, h], by simp [sudo_requiredSt, countCalls, h]⟩
  · intro h
    simp [sudo_requiredSt, h]
  · intro h
    exact ⟨by simp [email_verification_requiredSt, h],
      by simp [email_verification_requiredSt, countCalls, h]⟩
  · intro h
    simp [email_verification_requiredSt, h]

/-- A concrete stateful view used by the C9 witness: appends `1` to a log. -/
def logView : Unit → Request → Unit → Unit → List Nat →
    List Nat × Except ApiError Nat :=
  fun _ _ _ _ s => (s ++ [1], Except.ok 7)

/-- Witness for C9: at `verifiedRequest` (sudo flag set, verified email) both
decorators call the instrumented view exactly once; at `plainRequest` both
fail without touching counter or state. -/
theorem decorators_transparent_frame_witness :
    (is_considered_sudo verifiedRequest = true ∧
      sudo_requiredSt (countCalls logView) () verifiedRequest () () (0, [])
        = ((1, [1]), Except.ok 7))
    ∧ (is_considered_sudo plainRequest = false ∧
      sudo_requiredSt (countCalls logView) () plainRequest () () (0, [])
        = ((0, []), Except.error (ApiError.sudoRequired plainRequest.user))) :=
  ⟨⟨by decide,
      ((decorators_transparent_frame logView () verifiedRequest () () [] 0).1
        (by decide)).2⟩,
    ⟨by decide,
      (decorators_transparent_frame logView () plainRequest () () [] 0).2.1
        (by decide)⟩⟩

/-- Structured user context attached to a stored event, as in the tests
(`{"id": ..., "email": ...}`). -/
structure EventUser where
  id : String
  email : String
deriving DecidableEq, Repr

/-- The slice of a stored event read by the tag-values endpoint: its explicit
tags, an optional structured user context (the source of the synthetic
`user` tag), and a timestamp for recency ordering. -/
structure Event where
  tags : List (String × String)
  user : Option EventUser
  timestamp : Nat
deriving DecidableEq, Repr

/-- One record of the endpoint's JSON array: at least a `value` field, an
`email` field for the synthetic `user` tag, with the aggregated occurrence
count and latest timestamp used for ordering. -/
structure TagValueRecord where
  value : String
  email : Option String
  timesSeen : Nat
  lastSeen : Nat
deriving DecidableEq, Repr

/-- Modelled from the spec: the tag value an event contributes for a key.
The endpoint implementation is not under `src/` (only its tests are); per
the spec, for the synthetic `user` tag the value follows the form
`id:<user_id>` and carries the user's email, while for an ordinary key the
value is the event's stored tag value. -/
def eventTagValue (key : String) (e : Event) : Option (String × Option String) :=
  if key = "user" then
    e.user.map (fun u => ("id:" ++ u.id, some u.email))
  else
    (e.tags.lookup key).map (fun v => (v, none))

/-- Modelled from the spec: fold one occurrence of a tag value into the
aggregated records, merging occurrences that share the same value (counting
them and keeping the latest timestamp) and appending first-seen values. -/
def addOccurrence (recs : List TagValueRecord) (v : String)
    (em : Option String) (ts : Nat) : List TagValueRecord :=
  match recs with
  | [] => [⟨v, em, 1, ts⟩]
  | r :: rest =>
      if r.value = v then
        ⟨r.value, r.email, r.timesSeen + 1, max r.lastSeen ts⟩ :: rest
      else
        r :: addOccurrence rest v em ts

/-- Modelled from the spec: aggregation of the distinct tag values for a key
over a group's stored events. -/
def aggregateTagValues (events : List Event) (key : String) :
    List TagValueRecord :=
  events.foldl
    (fun acc e =>
      match eventTagValue key e with
      | some (v, em) => addOccurrence acc v em e.timestamp
      | none => acc) []

/-- Modelled from the spec: the ordering of the returned records — by recency
(descending latest timestamp) by default, or by descending occurrence count
when `sort=count` is requested. -/
def sortRecords (byCount : Bool) (recs : List TagValueRecord) :
    List TagValueRecord :=
  if byCount then
    List.insertionSort (fun a b => b.timesSeen ≤ a.timesSeen) recs
  else
    List.insertionSort (fun a b => b.lastSeen ≤ a.lastSeen) recs

/-- Modelled from the spec: the endpoint
`GET /api/0/issues/{group_id}/tags/{key}/values/` (implementation not under
`src/`; only its tests are).  It returns HTTP status 200 together with the
JSON array of aggregated tag-value records for the group's events, ordered
per `sortRecords`; `byCount` is true when `sort=count` is requested. -/
def groupTagKeyValues (events : List Event) (key : String) (byCount : Bool) :
    Nat × List TagValueRecord :=
  (200, sortRecords byCount (aggregateTagValues events key))

/-- The single tagged event of `GroupTagKeyValuesTest.test_simple`. -/
def simpleEvents : List Event :=
  [{ tags := [("foo", "bar")], user := none, timestamp := 100 }]

/-- C5: for a group with a single stored event carrying one tag,
`GET /api/0/issues/{group_id}/tags/{key}/values/` returns status 200 and a
JSON array of exactly one record whose `value` field equals the stored tag
value. -/
theorem group_tagkey_values_simple :
    (groupTagKeyValues simpleEvents "foo" false).1 = 200
    ∧ (groupTagKeyValues simpleEvents "foo" false).2.length = 1
    ∧ (groupTagKeyValues simpleEvents "foo" false).2.map
        (fun r => r.value) = ["bar"] := by
  decide

/-- The user-context event of `GroupTagKeyValuesTest.test_user_tag`. -/
def userTagEvents : List Event :=
  [{ tags := [], user := some { id := "1", email := "foo@example.com" },
     timestamp := 100 }]

/-- C6: for an event stored with a structured user context having id 1 and an
email, `GET /api/0/issues/{group_id}/tags/user/values/` returns a single
record whose `value` field is the string `id:1` and whose `email` field
equals the user's email. -/
theorem group_tagkey_values_user_tag :
    (groupTagKeyValues userTagEvents "user" false).1 = 200
    ∧ (groupTagKeyValues userTagEvents "user" false).2.length = 1
    ∧ (groupTagKeyValues userTagEvents "user" false).2.map
        (fun r => (r.value, r.email))
      = [("id:1", some "foo@example.com")] := by
  decide

/-- The three user-context events of `GroupTagKeyValuesTest.test_count_sort`:
two sharing user id 1 and one with user id 2. -/
def countSortEvents : List Event :=
  [{ tags := [], user := some { id := "1", email := "foo@example.com" },
     timestamp := 100 },
   { tags := [], user := some { id := "1", email := "foo@example.com" },
     timestamp := 101 },
   { tags := [], user := some { id := "2", email := "bar@example.com" },
     timestamp := 102 }]

/-- C7: when two stored events share one user identity and a third event
carries a different user identity,
`GET /api/0/issues/{group_id}/tags/user/values/?sort=count` returns the two
identities ordered by descending occurrence count, with the two-occurrence
identity first. -/
theorem group_tagkey_values_count_sort :
    (groupTagKeyValues countSortEvents "user" true).1 = 200
    ∧ (groupTagKeyValues countSortEvents "user" true).2.map
        (fun r => (r.value, r.email, r.timesSeen))
      = [("id:1", some "foo@example.com", 2),
         ("id:2", some "bar@example.com", 1)] := by
  decide

end Sentry
